import Mathlib

/-!
Verification of the error-and-diagnostics layer of topiary-core
(src/topiary-core/src/error.rs): the `FormatterError` taxonomy and its
`Display` rendering, the `ReportConversion` layer mapping external failure
types into the taxonomy, and the `ErrorSpan` diagnostic span with its
`Display` rendering and construction from a `NodeSpan`.
-/

namespace Topiary

/-- The `FormatterError` enum from error.rs: the various errors the
formatter may return. `Internal`, `Query` and `Io` carry a `String`
payload; the remaining variants carry none. -/
inductive FormatterError where
  | Idempotence
  | IdempotenceParsing
  | Internal (message : String)
  | Parsing
  | PatternDoesNotMatch
  | Query (message : String)
  | Io (message : String)
deriving DecidableEq

/-- The constant `please_log_message` string from
`impl fmt::Display for FormatterError` in error.rs. -/
def please_log_message : String :=
  "If this happened with the built-in query files, it is a bug. It would be\nhelpful if you logged this error at\nhttps://github.com/tweag/topiary/issues/new?assignees=&labels=type%3A+bug&template=bug_report.md"

/-- `impl fmt::Display for FormatterError` from error.rs, rendered to a
`String`.  The Rust `write!` format strings interpolate
`please_log_message`; here that interpolation is the explicit append. -/
def FormatterError.display : FormatterError → String
  | .Idempotence =>
      "The formatter did not produce the same\nresult when invoked twice (idempotence check).\n\n"
        ++ please_log_message
  | .IdempotenceParsing =>
      "The formatter produced invalid output and\nfailed when trying to format twice (idempotence check).\n\n"
        ++ please_log_message
        ++ "\n\nThe following is the error received when running the second time, but note\nthat any line and column numbers refer to the formatted code, not the\noriginal input. Run Topiary with the --skip-idempotence flag to see this\ninvalid formatted code."
  | .Parsing => "Tree-sitter could not parse the input without errors."
  | .PatternDoesNotMatch => "The query contains a pattern that does not match the input"
  | .Internal message => message
  | .Query message => message
  | .Io message => message

/-- A rendered message contains the bug-report tail: the constant
`please_log_message` occurs contiguously inside it. -/
def containsBugReportTail (s : String) : Prop :=
  please_log_message.data <:+: s.data

instance (s : String) : Decidable (containsBugReportTail s) :=
  List.decidableInfix _ _

/-! ### External failure types of the conversion layer

Each type below stands for one external failure type that error.rs
converts. Their fields model the instance data the external type carries
(the conversions never inspect it, apart from `IoError.kind`). -/

/-- `std::str::Utf8Error`: carries the valid prefix length and an optional
length of the invalid byte sequence. -/
structure Utf8Error where
  valid_up_to : Nat
  error_len : Option Nat
deriving DecidableEq

/-- `std::string::FromUtf8Error`: carries the offending bytes and the
underlying `Utf8Error`. -/
structure FromUtf8Error where
  bytes : List Nat
  utf8_error : Utf8Error
deriving DecidableEq

/-- `std::fmt::Error`: a unit struct. -/
inductive FmtError where
  | mk
deriving DecidableEq

/-- `serde_json::Error`: carries a message and a position. -/
structure SerdeJsonError where
  msg : String
  line : Nat
  column : Nat
deriving DecidableEq

/-- `topiary_tree_sitter_facade::LanguageError`: carries a grammar ABI
version. -/
structure LanguageError where
  version : Nat
deriving DecidableEq

/-- `topiary_tree_sitter_facade::ParserError`: carries a message. -/
structure ParserError where
  msg : String
deriving DecidableEq

/-- `topiary_tree_sitter_facade::QueryError`: carries a position and a
message. -/
structure QueryError where
  row : Nat
  column : Nat
  message : String
deriving DecidableEq

/-- The sub-kinds of `std::io::ErrorKind` (a representative closed set;
the conversion in error.rs only distinguishes `NotFound` from the rest). -/
inductive IoErrorKind where
  | NotFound
  | PermissionDenied
  | ConnectionRefused
  | ConnectionReset
  | BrokenPipe
  | AlreadyExists
  | WouldBlock
  | InvalidInput
  | InvalidData
  | TimedOut
  | WriteZero
  | Interrupted
  | Unsupported
  | UnexpectedEof
  | OutOfMemory
  | Other
deriving DecidableEq

/-- `std::io::Error`: a sub-kind plus an instance-specific message/payload. -/
structure IoError where
  kind : IoErrorKind
  message : String
deriving DecidableEq

/-- `std::io::IntoInnerError<W>` for a buffered writer over bytes: carries
the buffered writer contents and the underlying I/O error. -/
structure IntoInnerError where
  writer_buffer : List Nat
  error : IoError
deriving DecidableEq

/-- A type-erased error value, used for the links of a report's causal
chain (any of the error types handled by this layer may appear there). -/
inductive ErrorValue where
  | formatter (e : FormatterError)
  | utf8 (e : Utf8Error)
  | fromUtf8 (e : FromUtf8Error)
  | fmtErr (e : FmtError)
  | serdeJson (e : SerdeJsonError)
  | languageErr (e : LanguageError)
  | parserErr (e : ParserError)
  | queryErr (e : QueryError)
  | ioErr (e : IoError)
  | intoInner (e : IntoInnerError)
deriving DecidableEq

/-- A typed side-attachment carried by a report (e.g. a diagnostic span),
searchable by a discriminant tag. -/
structure Attachment where
  tag : String
  payload : String
deriving DecidableEq

/-- The erasure of a typed current error into an `ErrorValue` chain link. -/
class IntoErrorValue (α : Type) where
  intoErrorValue : α → ErrorValue

instance : IntoErrorValue FormatterError := ⟨ErrorValue.formatter⟩

instance : IntoErrorValue Utf8Error := ⟨ErrorValue.utf8⟩

instance : IntoErrorValue FromUtf8Error := ⟨ErrorValue.fromUtf8⟩

instance : IntoErrorValue FmtError := ⟨ErrorValue.fmtErr⟩

instance : IntoErrorValue SerdeJsonError := ⟨ErrorValue.serdeJson⟩

instance : IntoErrorValue LanguageError := ⟨ErrorValue.languageErr⟩

instance : IntoErrorValue ParserError := ⟨ErrorValue.parserErr⟩

instance : IntoErrorValue QueryError := ⟨ErrorValue.queryErr⟩

instance : IntoErrorValue IoError := ⟨ErrorValue.ioErr⟩

instance : IntoErrorValue IntoInnerError := ⟨ErrorValue.intoInner⟩

/-- Modelled from the spec: the `Report` container of the external
`rootcause` crate, which this repository consumes but does not own
(spec §2: "a generic holder of current error value + ordered bag of typed
side-attachments + link to prior context"; §3: the context chain is a
singly-linked causal history, newest first). `current` is the typed
current error, `prior` the erased causal chain (most recent first), and
`attachments` the ordered bag of side-attachments. -/
structure Report (α : Type) where
  current : α
  prior : List ErrorValue
  attachments : List Attachment

/-- Modelled from the spec: `rootcause`'s `current_context` accessor,
returning the report's current (outermost) error value. -/
def Report.currentContext {α : Type} (r : Report α) : α :=
  r.current

/-- Modelled from the spec: `rootcause`'s `context` operation — wrap the
report in a new outer context, pushing the previous current error onto
the causal chain (newest first) and keeping the attachments (spec §3
"each taxonomy value may wrap a previous error value plus its
attachments"). -/
def Report.context {α β : Type} [IntoErrorValue α] (r : Report α) (c : β) : Report β :=
  { current := c
    prior := IntoErrorValue.intoErrorValue r.current :: r.prior
    attachments := r.attachments }

/-! ### The conversion layer

One function per `ReportConversion` impl in error.rs (the first eight are
the `report_conversion!` macro instantiations, then the hand-written
`IntoInnerError` and `io::Error` impls). Each is `report.context(...)`
with the constant context from the source. -/

/-- `ReportConversion<str::Utf8Error>` for `FormatterError`. -/
def convertReportUtf8Error (r : Report Utf8Error) : Report FormatterError :=
  r.context (FormatterError.Io "Input is not valid UTF-8")

/-- `ReportConversion<string::FromUtf8Error>` for `FormatterError`. -/
def convertReportFromUtf8Error (r : Report FromUtf8Error) : Report FormatterError :=
  r.context (FormatterError.Io "Input is not valid UTF-8")

/-- `ReportConversion<fmt::Error>` for `FormatterError`. -/
def convertReportFmtError (r : Report FmtError) : Report FormatterError :=
  r.context (FormatterError.Io "Failed to format output")

/-- `ReportConversion<serde_json::Error>` for `FormatterError`. -/
def convertReportSerdeJsonError (r : Report SerdeJsonError) : Report FormatterError :=
  r.context (FormatterError.Io "Could not serialise JSON output")

/-- `ReportConversion<LanguageError>` for `FormatterError`. -/
def convertReportLanguageError (r : Report LanguageError) : Report FormatterError :=
  r.context (FormatterError.Io "Error while loading language grammar")

/-- `ReportConversion<ParserError>` for `FormatterError`. -/
def convertReportParserError (r : Report ParserError) : Report FormatterError :=
  r.context (FormatterError.Io "Error while parsing")

/-- `ReportConversion<QueryError>` for `FormatterError`. -/
def convertReportQueryError (r : Report QueryError) : Report FormatterError :=
  r.context (FormatterError.Query "Error parsing query file")

/-- `ReportConversion<io::IntoInnerError<W>>` for `FormatterError`. -/
def convertReportIntoInnerError (r : Report IntoInnerError) : Report FormatterError :=
  r.context (FormatterError.Io "Cannot flush internal buffer")

/-- `ReportConversion<io::Error>` for `FormatterError`: the message is
chosen by matching the current context's `kind()`, `NotFound` against
everything else. -/
def convertReportIoError (r : Report IoError) : Report FormatterError :=
  let msg : String :=
    match r.currentContext.kind with
    | IoErrorKind.NotFound => "File not found"
    | _ => "Could not read or write to file"
  r.context (FormatterError.Io msg)

/-! ### The diagnostic span -/

/-- A tree-sitter `Point`: zero-based row and column. -/
structure Point where
  row : Nat
  column : Nat
deriving DecidableEq

/-- A tree-sitter `Range`: start and end points plus start and end byte
offsets. -/
structure Range where
  start_point : Point
  end_point : Point
  start_byte : Nat
  end_byte : Nat
deriving DecidableEq

/-- A miette `SourceSpan`: a byte offset plus a length. -/
structure SourceSpan where
  offset : Nat
  length : Nat
deriving DecidableEq

/-- A miette `NamedSource<String>`: a source name, its full text, and an
optional language set by `with_language`. -/
structure NamedSource where
  name : String
  source : String
  language : Option String
deriving DecidableEq

/-- `NamedSource::new(name, source)`. -/
def NamedSource.new (name source : String) : NamedSource :=
  { name := name, source := source, language := none }

/-- `NamedSource::with_language`. -/
def NamedSource.with_language (s : NamedSource) (l : String) : NamedSource :=
  { s with language := some l }

/-- Modelled from the spec: `NodeSpan` from
src/topiary-core/src/tree_sitter.rs, which is not among the provided
sources. Per spec §4.3/§6 it is a located failure carrying an optional
source name (`location`), optional source content, a language, and a
range (line/column points plus byte offsets); its `source_span()` method
packages the byte range as an offset plus length. -/
structure NodeSpan where
  location : Option String
  content : Option String
  language : String
  range : Range
deriving DecidableEq

/-- Modelled from the spec: `NodeSpan::source_span`, the stored byte
range as a miette span (offset = start byte, length = byte extent). -/
def NodeSpan.source_span (s : NodeSpan) : SourceSpan :=
  { offset := s.range.start_byte, length := s.range.end_byte - s.range.start_byte }

/-- The `ErrorSpan` struct from error.rs: a named source excerpt, a
highlighted byte span, and the line/column range. -/
structure ErrorSpan where
  src : NamedSource
  span : SourceSpan
  range : Range
deriving DecidableEq

/-- `impl Display for ErrorSpan` from error.rs, rendered to a `String`:
the position report built from the stored range's start and end points. -/
def ErrorSpan.display (e : ErrorSpan) : String :=
  "Parsing error between line " ++ e.range.start_point.row.repr
    ++ ", column " ++ e.range.start_point.column.repr
    ++ " and line " ++ e.range.end_point.row.repr
    ++ ", column " ++ e.range.end_point.column.repr

/-- `impl From<NodeSpan> for ErrorSpan` from error.rs:
`NamedSource::new(location.unwrap_or_default(), content.unwrap_or_default())
.with_language(language)`, the node's `source_span()`, and its range. -/
def ErrorSpan.fromNodeSpan (s : NodeSpan) : ErrorSpan :=
  { src := (NamedSource.new (s.location.getD "") (s.content.getD "")).with_language s.language
    span := s.source_span
    range := s.range }

/-- The spec's invariant on a diagnostic span: the highlighted byte range
(offset plus length) lies within the bounds of the stored source text
(measured in UTF-8 bytes, as in the source language). -/
def ErrorSpan.spanInBounds (e : ErrorSpan) : Prop :=
  e.span.offset + e.span.length ≤ e.src.source.utf8ByteSize

instance (e : ErrorSpan) : Decidable e.spanInBounds :=
  inferInstanceAs (Decidable (_ ≤ _))

/-- The spec's worked example of a located failure: name "a.rs", content
"fn f() \x7b", start (row 0, col 0), end (row 0, col 8). -/
def exampleNodeSpan : NodeSpan :=
  { location := some "a.rs"
    content := some "fn f() \x7b"
    language := "rust"
    range :=
      { start_point := { row := 0, column := 0 }
        end_point := { row := 0, column := 8 }
        start_byte := 0
        end_byte := 8 } }

/-- A located failure with absent name and content but a non-empty byte
range. -/
def unboundedNodeSpan : NodeSpan :=
  { location := none
    content := none
    language := "rust"
    range :=
      { start_point := { row := 0, column := 0 }
        end_point := { row := 0, column := 8 }
        start_byte := 0
        end_byte := 8 } }

/-- A conversion is context-preserving when, after converting a report and
wrapping the result in one further context, the new current value is the
wrapper, the causal chain lists (most recent first) the conversion's
context, then the original external error, then the original chain, and
the attachments are untouched. `k0` gives the context the conversion adds
for a given original error. -/
def contextPreserving {α : Type} [IntoErrorValue α]
    (convert : Report α → Report FormatterError) (k0 : α → FormatterError) : Prop :=
  ∀ (r : Report α) (k2 : FormatterError),
    ((convert r).context k2).current = k2
    ∧ ((convert r).context k2).prior
        = ErrorValue.formatter (k0 r.current)
          :: IntoErrorValue.intoErrorValue r.current :: r.prior
    ∧ ((convert r).context k2).attachments = r.attachments

/-! ### Theorems -/

set_option maxRecDepth 8000

/-- C1 counterexample: the claim says the rendered text of `Internal`
contains the bug-report tail for every payload, but `Internal "x"`
renders as just `"x"`, which does not contain the tail. -/
theorem C1_counterexample :
    ¬ containsBugReportTail (FormatterError.display (FormatterError.Internal "x")) := by
  intro h
  have hl := h.length_le
  revert hl
  decide

/-- C1 (amended): the bug-report tail (`please_log_message`, with the
fixed issue-tracker URL) is appended exactly for `Idempotence` and
`IdempotenceParsing`; `Parsing` and `PatternDoesNotMatch` render without
it; `Internal`, `Query` and `Io` render their payload verbatim, so their
rendered text contains the tail exactly when the payload itself does. -/
theorem C1_bug_report_tail_amended :
    containsBugReportTail (FormatterError.display FormatterError.Idempotence)
    ∧ containsBugReportTail (FormatterError.display FormatterError.IdempotenceParsing)
    ∧ ¬ containsBugReportTail (FormatterError.display FormatterError.Parsing)
    ∧ ¬ containsBugReportTail (FormatterError.display FormatterError.PatternDoesNotMatch)
    ∧ ∀ m : String,
        (containsBugReportTail (FormatterError.display (FormatterError.Internal m))
          ↔ containsBugReportTail m)
        ∧ (containsBugReportTail (FormatterError.display (FormatterError.Query m))
          ↔ containsBugReportTail m)
        ∧ (containsBugReportTail (FormatterError.display (FormatterError.Io m))
          ↔ containsBugReportTail m) := by
  refine ⟨?_, ?_, ?_, ?_, fun m => ⟨Iff.rfl, Iff.rfl, Iff.rfl⟩⟩
  · exact ⟨("The formatter did not produce the same\nresult when invoked twice (idempotence check).\n\n").data,
      [], by simp [FormatterError.display, String.data_append]⟩
  · exact ⟨("The formatter produced invalid output and\nfailed when trying to format twice (idempotence check).\n\n").data,
      ("\n\nThe following is the error received when running the second time, but note\nthat any line and column numbers refer to the formatted code, not the\noriginal input. Run Topiary with the --skip-idempotence flag to see this\ninvalid formatted code.").data,
      by simp [FormatterError.display, String.data_append]⟩
  · intro h
    have hl := h.length_le
    revert hl
    decide
  · intro h
    have hl := h.length_le
    revert hl
    decide

/-- C2: converting an `io::Error` report always yields the `Io` variant,
with the message chosen solely by a two-way branch on the sub-kind:
`"File not found"` for `NotFound`, `"Could not read or write to file"`
for every other kind, independent of the error's message or payload. -/
theorem C2_io_error_conversion (r : Report IoError) :
    (convertReportIoError r).current
      = FormatterError.Io
          (if r.current.kind = IoErrorKind.NotFound then "File not found"
           else "Could not read or write to file") := by
  rcases r with ⟨⟨k, m⟩, p, a⟩
  cases k <;> rfl

/-- C2 witness: the conversion at concrete reports of both branches. -/
theorem C2_io_error_conversion_witness :
    (convertReportIoError ⟨⟨IoErrorKind.NotFound, "missing"⟩, [], []⟩).current
      = FormatterError.Io "File not found"
    ∧ (convertReportIoError ⟨⟨IoErrorKind.BrokenPipe, "pipe"⟩, [], []⟩).current
      = FormatterError.Io "Could not read or write to file" :=
  ⟨C2_io_error_conversion ⟨⟨IoErrorKind.NotFound, "missing"⟩, [], []⟩,
   C2_io_error_conversion ⟨⟨IoErrorKind.BrokenPipe, "pipe"⟩, [], []⟩⟩

/-- C3: each non-`io::Error` conversion of the layer is a total function
(defined for every report of its input type) yielding exactly the stated
variant with the stated constant message, independent of the instance's
internal data. -/
theorem C3_conversion_layer :
    (∀ r : Report Utf8Error,
      (convertReportUtf8Error r).current = FormatterError.Io "Input is not valid UTF-8")
    ∧ (∀ r : Report FromUtf8Error,
      (convertReportFromUtf8Error r).current = FormatterError.Io "Input is not valid UTF-8")
    ∧ (∀ r : Report FmtError,
      (convertReportFmtError r).current = FormatterError.Io "Failed to format output")
    ∧ (∀ r : Report SerdeJsonError,
      (convertReportSerdeJsonError r).current = FormatterError.Io "Could not serialise JSON output")
    ∧ (∀ r : Report LanguageError,
      (convertReportLanguageError r).current = FormatterError.Io "Error while loading language grammar")
    ∧ (∀ r : Report ParserError,
      (convertReportParserError r).current = FormatterError.Io "Error while parsing")
    ∧ (∀ r : Report QueryError,
      (convertReportQueryError r).current = FormatterError.Query "Error parsing query file")
    ∧ (∀ r : Report IntoInnerError,
      (convertReportIntoInnerError r).current = FormatterError.Io "Cannot flush internal buffer") :=
  ⟨fun _ => rfl, fun _ => rfl, fun _ => rfl, fun _ => rfl,
   fun _ => rfl, fun _ => rfl, fun _ => rfl, fun _ => rfl⟩

/-- C4: rendering `Internal(x)`, `Query(x)` and `Io(x)` produces exactly
the payload `x`, with no added text. -/
theorem C4_payload_passthrough (x : String) :
    FormatterError.display (FormatterError.Internal x) = x
    ∧ FormatterError.display (FormatterError.Query x) = x
    ∧ FormatterError.display (FormatterError.Io x) = x :=
  ⟨rfl, rfl, rfl⟩

/-- C5: rendering an `ErrorSpan` produces exactly the template
"Parsing error between line {start.row}, column {start.col} and line
{end.row}, column {end.col}" over the stored range; in particular the
span built from the spec's worked example (start (0,0), end (0,8))
renders to the exact expected string. -/
theorem C5_span_render :
    (∀ e : ErrorSpan,
      e.display
        = "Parsing error between line " ++ e.range.start_point.row.repr
            ++ ", column " ++ e.range.start_point.column.repr
            ++ " and line " ++ e.range.end_point.row.repr
            ++ ", column " ++ e.range.end_point.column.repr)
    ∧ (ErrorSpan.fromNodeSpan exampleNodeSpan).display
        = "Parsing error between line 0, column 0 and line 0, column 8" :=
  ⟨fun _ => rfl, rfl⟩

/-- C6: every conversion of the layer is context-preserving: wrapping the
converted report in a further context leaves the original external error
reachable on the causal chain, ordered most recent first, with the
attachments carried over. -/
theorem C6_context_preserving :
    contextPreserving convertReportUtf8Error
      (fun _ => FormatterError.Io "Input is not valid UTF-8")
    ∧ contextPreserving convertReportFromUtf8Error
      (fun _ => FormatterError.Io "Input is not valid UTF-8")
    ∧ contextPreserving convertReportFmtError
      (fun _ => FormatterError.Io "Failed to format output")
    ∧ contextPreserving convertReportSerdeJsonError
      (fun _ => FormatterError.Io "Could not serialise JSON output")
    ∧ contextPreserving convertReportLanguageError
      (fun _ => FormatterError.Io "Error while loading language grammar")
    ∧ contextPreserving convertReportParserError
      (fun _ => FormatterError.Io "Error while parsing")
    ∧ contextPreserving convertReportQueryError
      (fun _ => FormatterError.Query "Error parsing query file")
    ∧ contextPreserving convertReportIntoInnerError
      (fun _ => FormatterError.Io "Cannot flush internal buffer")
    ∧ contextPreserving convertReportIoError
      (fun e =>
        match e.kind with
        | IoErrorKind.NotFound => FormatterError.Io "File not found"
        | _ => FormatterError.Io "Could not read or write to file") := by
  refine ⟨fun r k => ⟨rfl, rfl, rfl⟩, fun r k => ⟨rfl, rfl, rfl⟩,
    fun r k => ⟨rfl, rfl, rfl⟩, fun r k => ⟨rfl, rfl, rfl⟩,
    fun r k => ⟨rfl, rfl, rfl⟩, fun r k => ⟨rfl, rfl, rfl⟩,
    fun r k => ⟨rfl, rfl, rfl⟩, fun r k => ⟨rfl, rfl, rfl⟩, fun r k => ?_⟩
  rcases r with ⟨⟨kind, m⟩, p, a⟩
  cases kind <;> exact ⟨rfl, rfl, rfl⟩

/-- C6 witness: the chain after converting a concrete UTF-8 failure and
wrapping it once more lists the contexts most recent first with the
original error last, keeping the attachment. -/
theorem C6_context_preserving_witness :
    ((convertReportUtf8Error ⟨⟨5, some 1⟩, [], [⟨"note", "n"⟩]⟩).context
        FormatterError.Parsing).prior
      = [ErrorValue.formatter (FormatterError.Io "Input is not valid UTF-8"),
         ErrorValue.utf8 ⟨5, some 1⟩]
    ∧ ((convertReportUtf8Error ⟨⟨5, some 1⟩, [], [⟨"note", "n"⟩]⟩).context
        FormatterError.Parsing).attachments = [⟨"note", "n"⟩] :=
  ⟨(C6_context_preserving.1 ⟨⟨5, some 1⟩, [], [⟨"note", "n"⟩]⟩ FormatterError.Parsing).2.1,
   (C6_context_preserving.1 ⟨⟨5, some 1⟩, [], [⟨"note", "n"⟩]⟩ FormatterError.Parsing).2.2⟩

/-- C7: building an `ErrorSpan` from a located failure is a total
function, and when the failure's source name and content are absent the
constructed span stores the empty string for both fields. -/
theorem C7_span_defaults (s : NodeSpan)
    (hl : s.location = none) (hc : s.content = none) :
    (ErrorSpan.fromNodeSpan s).src.name = ""
    ∧ (ErrorSpan.fromNodeSpan s).src.source = "" := by
  constructor <;>
    simp [ErrorSpan.fromNodeSpan, NamedSource.new, NamedSource.with_language, hl, hc]

/-- C7 witness: the defaults at a concrete located failure with absent
name and content. -/
theorem C7_span_defaults_witness :
    unboundedNodeSpan.location = none
    ∧ unboundedNodeSpan.content = none
    ∧ (ErrorSpan.fromNodeSpan unboundedNodeSpan).src.name = ""
    ∧ (ErrorSpan.fromNodeSpan unboundedNodeSpan).src.source = "" :=
  ⟨rfl, rfl, (C7_span_defaults unboundedNodeSpan rfl rfl).1,
   (C7_span_defaults unboundedNodeSpan rfl rfl).2⟩

/-- C8 counterexample: construction does not enforce the bounds
invariant — a located failure with absent content but a byte range of
length 8 yields a span whose highlighted range exceeds the stored
(empty) source text. -/
theorem C8_counterexample :
    ¬ (ErrorSpan.fromNodeSpan unboundedNodeSpan).spanInBounds := by
  decide

/-- C8 (amended): the bounds invariant is preserved, not established, by
construction: if the located failure's byte range lies within its
(defaulted) content, the constructed span's highlighted range lies within
the stored source text; nothing mutates a span after construction. -/
theorem C8_bounds_amended (s : NodeSpan)
    (h : s.range.start_byte + (s.range.end_byte - s.range.start_byte)
          ≤ (s.content.getD "").utf8ByteSize) :
    (ErrorSpan.fromNodeSpan s).spanInBounds := by
  simpa [ErrorSpan.spanInBounds, ErrorSpan.fromNodeSpan, NodeSpan.source_span,
    NamedSource.new, NamedSource.with_language] using h

/-- C8 witness: the preserved invariant at the spec's worked example,
whose 8-byte range fits its 8-byte content. -/
theorem C8_bounds_amended_witness :
    exampleNodeSpan.range.start_byte
        + (exampleNodeSpan.range.end_byte - exampleNodeSpan.range.start_byte)
      ≤ (exampleNodeSpan.content.getD "").utf8ByteSize
    ∧ (ErrorSpan.fromNodeSpan exampleNodeSpan).spanInBounds :=
  ⟨by decide, C8_bounds_amended exampleNodeSpan (by decide)⟩

/-- C9: the rendered texts of `Internal(m)`, `Query(m)` and `Io(m)` are
equal for every payload `m`, so the rendered message alone cannot
distinguish these three variants. -/
theorem C9_render_indistinguishable (m : String) :
    FormatterError.display (FormatterError.Internal m)
      = FormatterError.display (FormatterError.Query m)
    ∧ FormatterError.display (FormatterError.Query m)
      = FormatterError.display (FormatterError.Io m) :=
  ⟨rfl, rfl⟩

/-- C10: rendering an `ErrorSpan` depends only on the stored range's
start and end points: spans agreeing there render equally, whatever
their source name, source text, byte-offset span, or byte offsets. -/
theorem C10_display_range_only (e1 e2 : ErrorSpan)
    (h1 : e1.range.start_point = e2.range.start_point)
    (h2 : e1.range.end_point = e2.range.end_point) :
    e1.display = e2.display := by
  simp [ErrorSpan.display, h1, h2]

/-- Two concrete spans agreeing on points but differing in source name,
text, byte span and byte offsets. -/
def spanA : ErrorSpan :=
  { src := { name := "a.rs", source := "fn f() \x7b", language := none }
    span := { offset := 0, length := 8 }
    range :=
      { start_point := { row := 1, column := 2 }
        end_point := { row := 3, column := 4 }
        start_byte := 0
        end_byte := 8 } }

/-- A span differing from `spanA` everywhere except the range's points. -/
def spanB : ErrorSpan :=
  { src := { name := "b.ml", source := "let x = 1", language := some "ocaml" }
    span := { offset := 4, length := 1 }
    range :=
      { start_point := { row := 1, column := 2 }
        end_point := { row := 3, column := 4 }
        start_byte := 90
        end_byte := 99 } }

/-- C10 witness: the two concrete spans agree on their range points and
render identically. -/
theorem C10_display_range_only_witness :
    spanA.range.start_point = spanB.range.start_point
    ∧ spanA.range.end_point = spanB.range.end_point
    ∧ spanA.display = spanB.display :=
  ⟨rfl, rfl, C10_display_range_only spanA spanB rfl rfl⟩

end Topiary
